import Mathlib

set_option maxHeartbeats 1000000

namespace ProductReview

/-!
Shallow embedding of the product/review backend (Go + PostgreSQL migration).

Sources embedded here:
  * `src/internal/data/product.go` — `Product`, `ValidateProduct`, `ProductModel` CRUD,
    `GetAllProducts`;
  * `src/internal/data/review.go` — `Review`, `ValidateReview`, `ReviewModel` CRUD,
    `GetAllReviews`, `UpdateHelpfulCount`, `ProductExists`, `Exists`, `GetProductReview`;
  * `src/cmd/api/product.go`, `src/cmd/api/review.go` — handler control flow
    (`createReviewHandler`, `updateReviewHandler`, `HelpfulCountHandler`, listing handlers);
  * `src/Makefile` — the SQL migration: table schemas, `ON DELETE CASCADE`, and the
    `automatic_average_rating` trigger function.

The persistence layer is modelled as explicit state passing on `DBState`; SQL
statement + row trigger form one atomic state transition, matching the store's
transactional guarantee relied on by the design.  Machine integers are modelled
as unbounded `Int`/`Nat` (ids, versions and counters stay far below 2^31/2^63 in
every scenario the claims quantify over).  Timestamps are irrelevant to every
claim and are omitted from the row records.  Go `len` on a string is its byte
length, so string lengths are measured with `String.utf8ByteSize`.
-/

/-- Row of the `products` table / Go struct `Product` (internal/data/product.go).
`average_rating DECIMAL(3,2)` is kept in hundredths; `none` models SQL NULL
(the column is nullable: `DEFAULT 0.00` with no NOT NULL). -/
structure Product where
  productId : Int
  name : String
  description : String
  category : String
  imageUrl : String
  price : String
  averageRatingHundredths : Option Int
  version : Int
deriving DecidableEq, Repr

/-- Row of the `reviews` table / Go struct `Review` (internal/data/review.go). -/
structure Review where
  reviewId : Int
  productId : Int
  author : String
  rating : Int
  reviewText : String
  helpfulCount : Int
  version : Int
deriving DecidableEq, Repr

/-- The database state: both tables plus the `bigserial` id sequences. -/
structure DBState where
  products : List Product
  reviews : List Review
  nextProductId : Int
  nextReviewId : Int
deriving DecidableEq, Repr

/-- Pagination metadata (internal/data, consumed by both listing endpoints). -/
structure Metadata where
  currentPage : Int
  pageSize : Int
  lastPage : Int
  totalRecords : Int
deriving DecidableEq, Repr

/-- Error taxonomy crossing the handler boundary (cmd/api).  `pridNotFound`
models `a.PRIDnotFound(w, r, productID)` — the related-product-not-found
response naming the missing Product id; `rridNotFound` models
`a.RRIDnotFound` naming a missing Review id; `notFound` is the generic
`a.notFoundResponse`; `validationFailed` carries the accumulated field
errors of `a.failedValidationResponse`; `serverError` covers backend faults
and recovered panics; `badRequest` is `a.badRequestResponse`. -/
inductive ApiError where
  | notFound : ApiError
  | pidNotFound : Int → ApiError
  | ridNotFound : Int → ApiError
  | rridNotFound : Int → ApiError
  | pridNotFound : Int → ApiError
  | validationFailed : List (String × String) → ApiError
  | serverError : ApiError
  | badRequest : ApiError
deriving DecidableEq, Repr

/-- Modelled from the spec: the `internal/validator` package is not under
`src/`.  §4.1/§7: "validation failure is reported as a structured field-error
list ... the caller must surface all accumulated errors at once (not
fail-fast)"; §7: a `ValidationError` carries "a mapping of field name →
message".  Errors are an association list keyed by field name; a later
message for an already-present key is dropped (map semantics: first message
per field wins). -/
structure Validator where
  errors : List (String × String)
deriving DecidableEq, Repr

/-- Modelled from the spec: `validator.New()` — a fresh validator with no errors. -/
def Validator.New : Validator := ⟨[]⟩

/-- Modelled from the spec: record a field error unless the field already has one. -/
def Validator.addError (v : Validator) (key message : String) : Validator :=
  if v.errors.any (fun e => e.1 == key) then v
  else ⟨v.errors ++ [(key, message)]⟩

/-- Modelled from the spec: `v.Check(cond, key, message)` — accumulate a field
error when the condition is violated; never abort. -/
def Validator.check (v : Validator) (cond : Bool) (key message : String) : Validator :=
  if cond then v else v.addError key message

/-- Modelled from the spec: `v.IsEmpty()` — no violations were recorded. -/
def Validator.IsEmpty (v : Validator) : Bool := v.errors.isEmpty

/-- Does the validator hold an error for the given field? -/
def Validator.hasErrorOn (v : Validator) (key : String) : Bool :=
  v.errors.any (fun e => e.1 == key)

/-- `ValidateReview` from internal/data/review.go, checks in source order. -/
def ValidateReview (v : Validator) (review : Review) : Validator :=
  ((((v.check (review.author != "") "author" "must be provided"
    ).check (review.reviewText != "") "review_text" "must be provided"
    ).check (review.author.utf8ByteSize ≤ 25) "author" "must not be more than 25 bytes long"
    ).check (review.productId > 0) "product_id" "must be a positive integer"
    ).check (review.rating ≥ 1 && review.rating ≤ 5) "rating" "must be between 1 and 5"

/-- `ValidateProduct` from internal/data/product.go, checks in source order
(including the duplicated `description` non-empty check; note the source has
no non-empty check on `price`, only the length bound). -/
def ValidateProduct (v : Validator) (product : Product) : Validator :=
  (((((((((v.check (product.name != "") "name" "must be provided"
    ).check (product.name.utf8ByteSize ≤ 100) "name" "must not be more than 100 characters long"
    ).check (product.description != "") "description" "must be provided"
    ).check (product.description.utf8ByteSize ≤ 500) "description" "must not be more than 500 characters long"
    ).check (product.category != "") "category" "must be provided"
    ).check (product.imageUrl != "") "image_url" "must be provided"
    ).check (product.imageUrl.utf8ByteSize ≤ 255) "image_url" "must not be more than 255 characters long"
    ).check (product.price.utf8ByteSize ≤ 10) "price" "must not be more than 10 characters long"
    ).check (product.description != "") "description" "must be provided")

/-- `Filters` from internal/data (the file itself is not under `src/`; the
struct's fields and per-endpoint safelists appear verbatim in the handlers:
`Page`, `PageSize`, `Sort`, `SortSafeList`; `Sort` is a Lean keyword, so the
two sort fields are lower-cased here). -/
structure Filters where
  Page : Int
  PageSize : Int
  sort : String
  sortSafeList : List String
deriving DecidableEq, Repr

/-- Modelled from the spec: `ValidateFilters` (internal/data/filters.go is not
under `src/`).  §4.1: "`page` and `page_size` must be positive integers within
bounds" (page ≤ 10,000,000, page_size ≤ 100) and "`sort` must appear, with or
without its `-` prefix, in an explicit allow-list ... Any sort value outside
the allow-list fails validation", reported as accumulated field errors. -/
def ValidateFilters (v : Validator) (f : Filters) : Validator :=
  ((((v.check (f.Page > 0) "page" "must be greater than zero"
    ).check (f.Page ≤ 10000000) "page" "must be a maximum of 10 million"
    ).check (f.PageSize > 0) "page_size" "must be greater than zero"
    ).check (f.PageSize ≤ 100) "page_size" "must be a maximum of 100"
    ).check (f.sortSafeList.contains f.sort) "sort" "invalid sort value"

/-- Modelled from the spec: §4.1 output — "resolved sort column name" (the
sort value with its `-` prefix stripped); only ever used after validation. -/
def Filters.sortColumn (f : Filters) : String :=
  if f.sort.startsWith "-" then f.sort.drop 1 else f.sort

/-- Modelled from the spec: §4.1 output — "resolved sort direction
(`ASC`/`DESC`)", descending exactly when the sort value carries `-`. -/
def Filters.sortDirection (f : Filters) : String :=
  if f.sort.startsWith "-" then "DESC" else "ASC"

/-- Modelled from the spec: §4.1 — "a row-limit equal to `page_size`". -/
def Filters.limit (f : Filters) : Int := f.PageSize

/-- Modelled from the spec: §4.1 — "a row-offset equal to `(page-1)*page_size`". -/
def Filters.offset (f : Filters) : Int := (f.Page - 1) * f.PageSize

/-- Modelled from the spec: `calculateMetaData` (internal/data/filters.go is
not under `src/`).  §4.2: pure function; all-zero record when
`totalRecords == 0`, otherwise current page, page size,
`lastPage = ceil(totalRecords / pageSize)` in exact integer arithmetic, and
`totalRecords`. -/
def calculateMetaData (totalRecords page pageSize : Int) : Metadata :=
  if totalRecords == 0 then ⟨0, 0, 0, 0⟩
  else ⟨page, pageSize, (totalRecords + pageSize - 1) / pageSize, totalRecords⟩

/-! ## The aggregation trigger (src/Makefile migration) -/

/-- `ROUND(CAST(AVG(rating) AS NUMERIC), 2)` in hundredths for the reviews of
one product: NUMERIC division is exact, `ROUND(·,2)` rounds half away from
zero (here all ratings are positive, so half up); SQL `AVG` over zero rows is
NULL (`none`). -/
def avgRatingHundredths (reviews : List Review) (pid : Int) : Option Int :=
  let rs := reviews.filter (fun r => r.productId == pid)
  if rs.isEmpty then none
  else some ((200 * (rs.map (fun r => r.rating)).sum + rs.length) / (2 * rs.length))

/-- The row trigger function `automatic_average_rating` (src/Makefile
migration), fired `AFTER INSERT OR UPDATE OR DELETE ON reviews FOR EACH ROW`.
Its body updates the product whose id is `NEW.product_id`.  In plpgsql `NEW`
is null for DELETE operations, so on delete the `WHERE product_id =
NEW.product_id` clause matches no product row and nothing is recomputed
(`newRow = none` models the null `NEW`). -/
def automatic_average_rating (s : DBState) (newRow : Option Review) : DBState :=
  match newRow with
  | none => s
  | some nr =>
    { s with products := s.products.map (fun p =>
        if p.productId == nr.productId then
          { p with averageRatingHundredths := avgRatingHundredths s.reviews nr.productId }
        else p) }

/-! ## Store operations (internal/data) -/

/-- `ProductModel.ProductExists` (internal/data/review.go):
`SELECT EXISTS (SELECT 1 FROM products WHERE product_id = $1)`. -/
def ProductModel.ProductExists (s : DBState) (productID : Int) : Bool :=
  s.products.any (fun p => p.productId == productID)

/-- `ReviewModel.Exists` (internal/data/review.go):
`SELECT EXISTS(SELECT 1 FROM reviews WHERE review_id = $1)`. -/
def ReviewModel.Exists (s : DBState) (id : Int) : Bool :=
  s.reviews.any (fun r => r.reviewId == id)

/-- `ReviewModel.GetReview` (internal/data/review.go): fail fast on `id < 1`,
else select by primary key, `ErrRecordNotFound` on zero rows. -/
def GetReview (s : DBState) (id : Int) : Except ApiError Review :=
  if id < 1 then .error .notFound
  else
    match s.reviews.find? (fun r => r.reviewId == id) with
    | some r => .ok r
    | none => .error .notFound

/-- `ProductModel.GetProduct` (internal/data/product.go). -/
def GetProduct (s : DBState) (id : Int) : Except ApiError Product :=
  if id < 1 then .error .notFound
  else
    match s.products.find? (fun p => p.productId == id) with
    | some p => .ok p
    | none => .error .notFound

/-- `ReviewModel.InsertReview` (internal/data/review.go) plus the AFTER INSERT
row trigger: id from the `bigserial` sequence, `version` defaults to 1,
`COALESCE($5, 0)` handled by the caller's default; the trigger fires with
`NEW` = the inserted row, atomically with the insert. -/
def InsertReview (s : DBState) (review : Review) : DBState × Review :=
  let inserted := { review with reviewId := s.nextReviewId, version := 1 }
  let s1 := { s with reviews := s.reviews ++ [inserted], nextReviewId := s.nextReviewId + 1 }
  (automatic_average_rating s1 (some inserted), inserted)

/-- `ReviewModel.UpdateReview` (internal/data/review.go) plus the AFTER UPDATE
row trigger: `SET author = $1, rating = $2, review_text = $3,
version = version + 1 WHERE review_id = $4 RETURNING version`; zero rows make
the `Scan` fail with `ErrNoRows`, surfaced by the caller as a server error. -/
def UpdateReview (s : DBState) (review : Review) : Except ApiError (DBState × Review) :=
  match s.reviews.find? (fun r => r.reviewId == review.reviewId) with
  | none => .error .serverError
  | some old =>
    let updatedRow := { old with
      author := review.author, rating := review.rating,
      reviewText := review.reviewText, version := old.version + 1 }
    let s1 := { s with reviews := s.reviews.map (fun r =>
      if r.reviewId == review.reviewId then
        { r with author := review.author, rating := review.rating,
                 reviewText := review.reviewText, version := r.version + 1 }
      else r) }
    .ok (automatic_average_rating s1 (some updatedRow), updatedRow)

/-- `ReviewModel.DeleteReview` (internal/data/review.go) plus the AFTER DELETE
row trigger: fail fast on `id < 1`; `rowsAffected == 0` is
`ErrRecordNotFound`; on delete the trigger fires with null `NEW`. -/
def DeleteReview (s : DBState) (id : Int) : Except ApiError DBState :=
  if id < 1 then .error .notFound
  else if s.reviews.any (fun r => r.reviewId == id) then
    let s1 := { s with reviews := s.reviews.filter (fun r => !(r.reviewId == id)) }
    .ok (automatic_average_rating s1 none)
  else .error .notFound

/-- `ProductModel.DeleteProduct` (internal/data/product.go) together with the
schema's `reviews.product_id ... ON DELETE CASCADE` (src/Makefile migration):
deleting a product removes it and every review referencing it as one atomic
transition; the cascaded review deletions fire the AFTER DELETE trigger with
null `NEW`, which recomputes nothing. -/
def DeleteProduct (s : DBState) (id : Int) : Except ApiError DBState :=
  if id < 1 then .error .notFound
  else if s.products.any (fun p => p.productId == id) then
    let s1 := { s with
      products := s.products.filter (fun p => !(p.productId == id)),
      reviews := s.reviews.filter (fun r => !(r.productId == id)) }
    .ok (automatic_average_rating s1 none)
  else .error .notFound

/-- `ReviewModel.UpdateHelpfulCount` (internal/data/review.go) plus the AFTER
UPDATE row trigger: `SET helpful_count = helpful_count + 1 WHERE review_id =
$1 RETURNING ...` — a single atomic add-1 on the stored value, not a
read-then-write in the application; zero rows make the `Scan` fail
(`ErrNoRows`), surfaced as a server error. -/
def UpdateHelpfulCount (s : DBState) (id : Int) : Except ApiError (DBState × Review) :=
  match s.reviews.find? (fun r => r.reviewId == id) with
  | none => .error .serverError
  | some old =>
    let updatedRow := { old with helpfulCount := old.helpfulCount + 1 }
    let s1 := { s with reviews := s.reviews.map (fun r =>
      if r.reviewId == id then { r with helpfulCount := r.helpfulCount + 1 } else r) }
    .ok (automatic_average_rating s1 (some updatedRow), updatedRow)

/-- `to_tsvector('simple', text) @@ plainto_tsquery('simple', q)`: with the
`simple` configuration both sides are lower-cased and split into words, and
the query matches when every query word occurs among the text's words. -/
def tsMatch (text q : String) : Bool :=
  let words := text.toLower.splitOn " "
  (q.toLower.splitOn " ").all (fun w => words.contains w)

/-- The `WHERE` clause of `GetAllProducts`: full-text match on `name` and on
`category`, each disabled by an empty filter value (`OR $n = ''`). -/
def productWhere (name category : String) (p : Product) : Bool :=
  (tsMatch p.name name || name == "") && (tsMatch p.category category || category == "")

/-- The `WHERE` clause of `GetAllReviews`: full-text match on `author`,
disabled by an empty filter value. -/
def reviewWhere (author : String) (r : Review) : Bool :=
  tsMatch r.author author || author == ""

/-- `ORDER BY <sortColumn> <sortDirection>, product_id ASC` as a Boolean
"less or equal" on product rows (column is `name` or `product_id` once the
safelist has been enforced). -/
def productOrder (f : Filters) (a b : Product) : Bool :=
  let keyEq : Bool := if f.sortColumn == "name" then a.name == b.name
                      else a.productId == b.productId
  if keyEq then a.productId ≤ b.productId
  else
    let lt : Bool := if f.sortColumn == "name" then a.name < b.name
                     else a.productId < b.productId
    if f.sortDirection == "DESC" then !lt else lt

/-- `ORDER BY <sortColumn> <sortDirection>, review_id ASC` on review rows
(column is `author` or `review_id`). -/
def reviewOrder (f : Filters) (a b : Review) : Bool :=
  let keyEq : Bool := if f.sortColumn == "author" then a.author == b.author
                      else a.reviewId == b.reviewId
  if keyEq then a.reviewId ≤ b.reviewId
  else
    let lt : Bool := if f.sortColumn == "author" then a.author < b.author
                     else a.reviewId < b.reviewId
    if f.sortDirection == "DESC" then !lt else lt

/-- `ProductModel.GetAllProducts` (internal/data/product.go):
`SELECT COUNT(*) OVER(), ... WHERE ... ORDER BY ... LIMIT $3 OFFSET $4`.
The window count is evaluated over all rows matching the filter, but it is
scanned from the returned rows, so `totalRecords` keeps its zero initial
value when the page holds no rows. -/
def GetAllProducts (s : DBState) (name category : String) (f : Filters) :
    List Product × Metadata :=
  let matching := s.products.filter (productWhere name category)
  let sorted := matching.mergeSort (productOrder f)
  let pageRows := (sorted.drop f.offset.toNat).take f.limit.toNat
  let totalRecords : Int := if pageRows.isEmpty then 0 else (matching.length : Int)
  (pageRows, calculateMetaData totalRecords f.Page f.PageSize)

/-- `ReviewModel.GetAllReviews` (internal/data/review.go): same shape as
`GetAllProducts` with the author filter. -/
def GetAllReviews (s : DBState) (author : String) (f : Filters) :
    List Review × Metadata :=
  let matching := s.reviews.filter (reviewWhere author)
  let sorted := matching.mergeSort (reviewOrder f)
  let pageRows := (sorted.drop f.offset.toNat).take f.limit.toNat
  let totalRecords : Int := if pageRows.isEmpty then 0 else (matching.length : Int)
  (pageRows, calculateMetaData totalRecords f.Page f.PageSize)

/-! ## Handlers (cmd/api) -/

/-- The decoded JSON body of a create-review request
(`incomingReviewData` in `createReviewHandler`, cmd/api/review.go):
every field is a pointer, `none` models an absent field. -/
structure ReviewInput where
  productId : Option Int
  author : Option String
  rating : Option Int
  helpfulCount : Option Int
  reviewText : Option String
deriving DecidableEq, Repr

/-- `createReviewHandler` (cmd/api/review.go), after JSON decoding: missing
`product_id` is a bad request; then `ProductExists` — a missing product is
answered with `PRIDnotFound` naming the product id, before anything is
inserted; a nil `helpful_count` defaults to 0; the remaining pointer fields
are dereferenced unconditionally (a nil dereference panics and is recovered
into a server error response); then validation, then `InsertReview`. -/
def createReviewHandler (s : DBState) (inp : ReviewInput) :
    Except ApiError (DBState × Review) :=
  match inp.productId with
  | none => .error .badRequest
  | some pid =>
    if !ProductModel.ProductExists s pid then .error (.pridNotFound pid)
    else
      let hc := inp.helpfulCount.getD 0
      match inp.author, inp.rating, inp.reviewText with
      | some author, some rating, some reviewText =>
        let review : Review :=
          { reviewId := 0, productId := pid, author := author, rating := rating,
            reviewText := reviewText, helpfulCount := hc, version := 0 }
        let v := ValidateReview Validator.New review
        if !v.IsEmpty then .error (.validationFailed v.errors)
        else .ok (InsertReview s review)
      | _, _, _ => .error .serverError

/-- The decoded JSON body of an update-review request
(`incomingReviewData` in `updateReviewHandler`, cmd/api/review.go). -/
structure ReviewUpdateInput where
  author : Option String
  rating : Option Int
  reviewText : Option String
deriving DecidableEq, Repr

/-- `updateReviewHandler` (cmd/api/review.go): fetch the review, overwrite
only the supplied fields, validate the merged review, then `UpdateReview`
(which increments `version` by 1 in the store). -/
def updateReviewHandler (s : DBState) (id : Int) (inp : ReviewUpdateInput) :
    Except ApiError (DBState × Review) :=
  match GetReview s id with
  | .error e => .error e
  | .ok review =>
    let merged := { review with
      author := inp.author.getD review.author,
      rating := inp.rating.getD review.rating,
      reviewText := inp.reviewText.getD review.reviewText }
    let v := ValidateReview Validator.New merged
    if !v.IsEmpty then .error (.validationFailed v.errors)
    else UpdateReview s merged

/-- `HelpfulCountHandler` (cmd/api/review.go): `ReviewModel.Exists` first,
answering `RRIDnotFound` with the review id when absent; then
`UpdateHelpfulCount`. -/
def HelpfulCountHandler (s : DBState) (id : Int) :
    Except ApiError (DBState × Review) :=
  if !ReviewModel.Exists s id then .error (.rridNotFound id)
  else UpdateHelpfulCount s id

/-- `deleteProductHandler` (cmd/api/product.go): `DeleteProduct`, mapping
`ErrRecordNotFound` to `PIDnotFound` naming the product id. -/
def deleteProductHandler (s : DBState) (id : Int) : Except ApiError DBState :=
  match DeleteProduct s id with
  | .error .notFound => .error (.pidNotFound id)
  | r => r

/-- `listProductHandler` (cmd/api/product.go): build the `Filters` with the
product safelist `{product_id, name, -product_id, -name}`, run
`ValidateFilters`, surface accumulated errors without querying, else run
`GetAllProducts`. -/
def listProductHandler (s : DBState) (name category sortParam : String)
    (page pageSize : Int) : Except ApiError (List Product × Metadata) :=
  let filters : Filters :=
    { Page := page, PageSize := pageSize, sort := sortParam,
      sortSafeList := ["product_id", "name", "-product_id", "-name"] }
  let v := ValidateFilters Validator.New filters
  if !v.IsEmpty then .error (.validationFailed v.errors)
  else .ok (GetAllProducts s name category filters)

/-- `listReviewHandler` (cmd/api/review.go): same shape with the review
safelist `{review_id, author, -review_id, -author}` and `GetAllReviews`. -/
def listReviewHandler (s : DBState) (author sortParam : String)
    (page pageSize : Int) : Except ApiError (List Review × Metadata) :=
  let filters : Filters :=
    { Page := page, PageSize := pageSize, sort := sortParam,
      sortSafeList := ["review_id", "author", "-review_id", "-author"] }
  let v := ValidateFilters Validator.New filters
  if !v.IsEmpty then .error (.validationFailed v.errors)
  else .ok (GetAllReviews s author filters)

/-- Referential integrity: every review references an existing product. -/
def refIntegrity (s : DBState) : Prop :=
  ∀ r ∈ s.reviews, ∃ p ∈ s.products, p.productId = r.productId

instance (s : DBState) : Decidable (refIntegrity s) := by
  unfold refIntegrity; infer_instance

/-- Repeated application of `HelpfulCountHandler` on the same review id: the
state after `n` successive helpful-count requests (a failed request leaves
the state unchanged). -/
def iterateHelpful (s : DBState) (id : Int) : Nat → DBState
  | 0 => s
  | n + 1 =>
    match HelpfulCountHandler (iterateHelpful s id n) id with
    | .ok (s', _) => s'
    | .error _ => iterateHelpful s id n

/-- A database holding one product (id 1, default average 0.00) and no
reviews, used to exercise the aggregation trigger end to end. -/
def demoProductState : DBState :=
  ⟨[⟨1, "Widget", "d", "tools", "u", "9.99", some 0, 1⟩], [], 2, 1⟩

/-- A valid create-review request body for product 1 with the given rating. -/
def demoReviewInput (rating : Int) : ReviewInput :=
  ⟨some 1, some "ann", some rating, none, some "ok"⟩

/-- The stored `average_rating` (in hundredths, `none` = SQL NULL) of a
product, or `none` when the product row is absent. -/
def averageOf (s : DBState) (pid : Int) : Option (Option Int) :=
  (s.products.find? (fun p => p.productId == pid)).map
    (fun p => p.averageRatingHundredths)

/-- The aggregation scenario of the spec: insert reviews rated 2 and 4 for
product 1, then delete the rating-4 review, then delete the last remaining
review; the result lists product 1 average after the two inserts, after
the first delete, and after the second delete. -/
def averagingScenario :
    Except ApiError (Option (Option Int) × Option (Option Int) × Option (Option Int)) := do
  let (s1, _) ← createReviewHandler demoProductState (demoReviewInput 2)
  let (s2, _) ← createReviewHandler s1 (demoReviewInput 4)
  let s3 ← DeleteReview s2 2
  let s4 ← DeleteReview s3 1
  pure (averageOf s2 1, averageOf s3 1, averageOf s4 1)

/-! ## Helper lemmas about the validator -/

/-- `check` adds an error on field `k'` exactly when the condition fails and
`k` is that field (or the error was already there). -/
theorem hasErrorOn_check (v : Validator) (c : Bool) (k m k' : String) :
    (v.check c k m).hasErrorOn k' = (v.hasErrorOn k' || (!c && (k == k'))) := by
  unfold Validator.check Validator.addError Validator.hasErrorOn
  by_cases hc : c
  · simp [hc]
  · simp only [hc, Bool.not_false, Bool.true_and, if_false, Bool.false_eq_true, ite_false]
    by_cases hin : v.errors.any (fun e => e.1 == k)
    · simp only [hin, if_true]
      by_cases hkk : (k == k')
      · have : v.errors.any (fun e => e.1 == k') = true := by
          rw [List.any_eq_true] at hin ⊢
          obtain ⟨e, he, hek⟩ := hin
          exact ⟨e, he, by rw [beq_iff_eq] at hek hkk ⊢; rw [hek, hkk]⟩
        simp [this, hkk]
      · simp [hkk]
    · simp only [hin, if_false, Bool.false_eq_true, ite_false]
      simp [List.any_append]

/-- A fresh validator has no error on any field. -/
theorem hasErrorOn_New (k : String) : Validator.New.hasErrorOn k = false := rfl

/-- `check` leaves the validator empty exactly when it was empty and the
condition holds. -/
theorem IsEmpty_check (v : Validator) (c : Bool) (k m : String) :
    (v.check c k m).IsEmpty = (v.IsEmpty && c) := by
  unfold Validator.check Validator.addError Validator.IsEmpty
  by_cases hc : c
  · simp [hc]
  · simp only [hc, if_false, Bool.and_false, Bool.false_eq_true, ite_false]
    by_cases hin : v.errors.any (fun e => e.1 == k)
    · simp only [hin, if_true]
      cases h : v.errors with
      | nil => rw [h] at hin; simp at hin
      | cons a l => simp
    · simp [hin]

/-- Every error after a `check` either was there before or is that check's
field/message pair. -/
theorem mem_errors_check (v : Validator) (c : Bool) (k m : String) (e : String × String)
    (he : e ∈ (v.check c k m).errors) : e ∈ v.errors ∨ e = (k, m) := by
  unfold Validator.check Validator.addError at he
  by_cases hc : c
  · simp [hc] at he; exact Or.inl he
  · simp only [hc, if_false, Bool.false_eq_true, ite_false] at he
    by_cases hin : v.errors.any (fun e => e.1 == k)
    · simp only [hin, if_true] at he; exact Or.inl he
    · simp only [hin, Bool.false_eq_true, if_false, ite_false, List.mem_append,
        List.mem_singleton] at he
      exact he

/-! ## Claim theorems -/

/-- Claim C7: for every review input, validation accumulates every violated
field constraint and reports all of them together in the field-error list —
a field carries an error exactly when its constraint is violated (no
fail-fast: violations of later checks are recorded even when earlier checks
fail), the validator passes exactly when no constraint is violated, and no
error is reported on any field outside the review's field set (nothing is
reported through any other channel). -/
theorem validateReview_accumulates_all (review : Review) :
    ((ValidateReview Validator.New review).hasErrorOn "author"
        ↔ (review.author = "" ∨ 25 < review.author.utf8ByteSize)) ∧
    ((ValidateReview Validator.New review).hasErrorOn "review_text"
        ↔ review.reviewText = "") ∧
    ((ValidateReview Validator.New review).hasErrorOn "product_id"
        ↔ review.productId ≤ 0) ∧
    ((ValidateReview Validator.New review).hasErrorOn "rating"
        ↔ (review.rating < 1 ∨ 5 < review.rating)) ∧
    ((ValidateReview Validator.New review).IsEmpty
        ↔ ¬(review.author = "" ∨ 25 < review.author.utf8ByteSize) ∧
          review.reviewText ≠ "" ∧ 0 < review.productId ∧
          (1 ≤ review.rating ∧ review.rating ≤ 5)) ∧
    (∀ e ∈ (ValidateReview Validator.New review).errors,
        e.1 ∈ (["author", "review_text", "product_id", "rating"] : List String)) := by
  refine ⟨?_, ?_, ?_, ?_, ?_, ?_⟩
  · simp only [ValidateReview, hasErrorOn_check, hasErrorOn_New]
    simp
  · simp only [ValidateReview, hasErrorOn_check, hasErrorOn_New]
    simp
  · simp only [ValidateReview, hasErrorOn_check, hasErrorOn_New]
    simp
  · simp only [ValidateReview, hasErrorOn_check, hasErrorOn_New]
    simp
  · simp only [ValidateReview, IsEmpty_check]
    simp only [Validator.IsEmpty, Validator.New]
    simp
    tauto
  · intro e he
    simp only [ValidateReview] at he
    rcases mem_errors_check _ _ _ _ _ he with he | rfl
    rotate_left
    · simp
    rcases mem_errors_check _ _ _ _ _ he with he | rfl
    rotate_left
    · simp
    rcases mem_errors_check _ _ _ _ _ he with he | rfl
    rotate_left
    · simp
    rcases mem_errors_check _ _ _ _ _ he with he | rfl
    rotate_left
    · simp
    rcases mem_errors_check _ _ _ _ _ he with he | rfl
    rotate_left
    · simp
    · simp [Validator.New] at he

/-- Claim C8 counterexample: a product whose other fields are valid but whose
price is the empty string passes validation with no field error at all — in
particular no field error on `price` — refuting the claim that price must be
non-empty. -/
theorem emptyPrice_passes_validation :
    (ValidateProduct Validator.New
        { productId := 0, name := "a", description := "d", category := "c",
          imageUrl := "u", price := "", averageRatingHundredths := none,
          version := 1 }).IsEmpty = true ∧
    (ValidateProduct Validator.New
        { productId := 0, name := "a", description := "d", category := "c",
          imageUrl := "u", price := "", averageRatingHundredths := none,
          version := 1 }).hasErrorOn "price" = false := by
  constructor <;> rfl

/-- Claim C8 as amended: `name`, `description`, `category` and `image_url`
must be non-empty, with byte-length bounds name ≤ 100, description ≤ 500,
image_url ≤ 255; `price` is only bounded by length ≤ 10 and is not required
to be non-empty (an empty price yields no field error), and `category`
carries no length bound. -/
theorem validateProduct_characterization (product : Product) :
    ((ValidateProduct Validator.New product).hasErrorOn "name"
        ↔ (product.name = "" ∨ 100 < product.name.utf8ByteSize)) ∧
    ((ValidateProduct Validator.New product).hasErrorOn "description"
        ↔ (product.description = "" ∨ 500 < product.description.utf8ByteSize)) ∧
    ((ValidateProduct Validator.New product).hasErrorOn "category"
        ↔ product.category = "") ∧
    ((ValidateProduct Validator.New product).hasErrorOn "image_url"
        ↔ (product.imageUrl = "" ∨ 255 < product.imageUrl.utf8ByteSize)) ∧
    ((ValidateProduct Validator.New product).hasErrorOn "price"
        ↔ 10 < product.price.utf8ByteSize) ∧
    ((ValidateProduct Validator.New product).IsEmpty
        ↔ ¬(product.name = "" ∨ 100 < product.name.utf8ByteSize) ∧
          ¬(product.description = "" ∨ 500 < product.description.utf8ByteSize) ∧
          product.category ≠ "" ∧
          ¬(product.imageUrl = "" ∨ 255 < product.imageUrl.utf8ByteSize) ∧
          product.price.utf8ByteSize ≤ 10) := by
  refine ⟨?_, ?_, ?_, ?_, ?_, ?_⟩
  · simp only [ValidateProduct, hasErrorOn_check, hasErrorOn_New]
    simp
  · simp only [ValidateProduct, hasErrorOn_check, hasErrorOn_New]
    simp
    tauto
  · simp only [ValidateProduct, hasErrorOn_check, hasErrorOn_New]
    simp
  · simp only [ValidateProduct, hasErrorOn_check, hasErrorOn_New]
    simp
  · simp only [ValidateProduct, hasErrorOn_check, hasErrorOn_New]
    simp
  · simp only [ValidateProduct, IsEmpty_check]
    simp only [Validator.IsEmpty, Validator.New]
    simp
    tauto


/-- Witness for C7 at a concrete review violating the author constraint. -/
theorem validateReview_accumulates_all_witness :
    (ValidateReview Validator.New ⟨0, 0, "", 0, "", 0, 0⟩).hasErrorOn "author" = true :=
  (validateReview_accumulates_all ⟨0, 0, "", 0, "", 0, 0⟩).1.mpr (Or.inl rfl)

/-- Witness for the amended C8 at a concrete product with an empty name. -/
theorem validateProduct_characterization_witness :
    (ValidateProduct Validator.New ⟨0, "", "d", "c", "u", "", none, 1⟩).hasErrorOn "name"
      = true :=
  (validateProduct_characterization ⟨0, "", "d", "c", "u", "", none, 1⟩).1.mpr (Or.inl rfl)

/-- Claim C5: for every valid input triple, the pagination metadata
calculator is a pure function returning the current page, page size and
total record count unchanged, with `lastPage` equal to the ceiling of
`totalRecords / pageSize` in exact integer arithmetic (characterised by
`pageSize * (lastPage - 1) < totalRecords ≤ pageSize * lastPage`), and an
all-zero record when `totalRecords = 0`. -/
theorem calculateMetaData_ceiling (totalRecords page pageSize : Int)
    (hps : 0 < pageSize) :
    (totalRecords = 0 → calculateMetaData totalRecords page pageSize = ⟨0, 0, 0, 0⟩) ∧
    (0 < totalRecords →
      (calculateMetaData totalRecords page pageSize).currentPage = page ∧
      (calculateMetaData totalRecords page pageSize).pageSize = pageSize ∧
      (calculateMetaData totalRecords page pageSize).totalRecords = totalRecords ∧
      pageSize * ((calculateMetaData totalRecords page pageSize).lastPage - 1)
        < totalRecords ∧
      totalRecords ≤ pageSize * (calculateMetaData totalRecords page pageSize).lastPage) := by
  constructor
  · intro h; simp [calculateMetaData, h]
  · intro ht
    have hne : (totalRecords == 0) = false := by
      simp [beq_iff_eq]; omega
    have hlp : (calculateMetaData totalRecords page pageSize).lastPage
        = (totalRecords + pageSize - 1) / pageSize := by
      simp [calculateMetaData, hne]
    have hdm := Int.ediv_add_emod (totalRecords + pageSize - 1) pageSize
    have hr0 : 0 ≤ (totalRecords + pageSize - 1) % pageSize :=
      Int.emod_nonneg _ (by omega)
    have hr1 : (totalRecords + pageSize - 1) % pageSize < pageSize :=
      Int.emod_lt_of_pos _ hps
    have hexp : pageSize * ((totalRecords + pageSize - 1) / pageSize - 1)
        = pageSize * ((totalRecords + pageSize - 1) / pageSize) - pageSize := by ring
    refine ⟨by simp [calculateMetaData, hne], by simp [calculateMetaData, hne],
      by simp [calculateMetaData, hne], ?_, ?_⟩
    · rw [hlp, hexp]; linarith [hdm, hr0, hr1]
    · rw [hlp]; linarith [hdm, hr0, hr1]

/-- Witness for C5: 25 records at 10 per page give last page 3; zero records
give the all-zero record. -/
theorem calculateMetaData_ceiling_witness :
    calculateMetaData 0 1 10 = ⟨0, 0, 0, 0⟩ ∧
    ((calculateMetaData 25 3 10).currentPage = 3 ∧
      (calculateMetaData 25 3 10).pageSize = 10 ∧
      (calculateMetaData 25 3 10).totalRecords = 25 ∧
      10 * ((calculateMetaData 25 3 10).lastPage - 1) < 25 ∧
      25 ≤ 10 * (calculateMetaData 25 3 10).lastPage) := by
  constructor
  · exact (calculateMetaData_ceiling 0 1 10 (by decide)).1 rfl
  · exact (calculateMetaData_ceiling 25 3 10 (by decide)).2 (by decide)

/-- Adding an error for a field not yet present records exactly that
field/message pair. -/
theorem mem_addError (v : Validator) (k m : String) (h : v.hasErrorOn k = false) :
    (k, m) ∈ (v.addError k m).errors := by
  unfold Validator.addError
  unfold Validator.hasErrorOn at h
  simp [h]

/-- When the sort value is not in the safelist, filter validation fails and
records a field error on `sort`. -/
theorem validateFilters_sort_fails (f : Filters)
    (h : f.sortSafeList.contains f.sort = false) :
    (ValidateFilters Validator.New f).IsEmpty = false ∧
    ("sort", "invalid sort value") ∈ (ValidateFilters Validator.New f).errors := by
  constructor
  · simp only [ValidateFilters, IsEmpty_check, h, Bool.and_false]
  · have h4 : ((((Validator.New.check (f.Page > 0) "page" "must be greater than zero"
        ).check (f.Page ≤ 10000000) "page" "must be a maximum of 10 million"
        ).check (f.PageSize > 0) "page_size" "must be greater than zero"
        ).check (f.PageSize ≤ 100) "page_size" "must be a maximum of 100"
        ).hasErrorOn "sort" = false := by
      simp only [hasErrorOn_check, hasErrorOn_New]
      simp
    simp only [ValidateFilters, Validator.check, h, Bool.false_eq_true, if_false, ite_false]
    exact mem_addError _ _ _ h4

/-- The product listing handler rejects an out-of-safelist sort value before
reaching the store. -/
theorem listProductHandler_sortError (s : DBState) (name category sortParam : String)
    (page pageSize : Int)
    (h : sortParam ∉ (["product_id", "name", "-product_id", "-name"] : List String)) :
    listProductHandler s name category sortParam page pageSize
      = .error (.validationFailed (ValidateFilters Validator.New
          ⟨page, pageSize, sortParam, ["product_id", "name", "-product_id", "-name"]⟩).errors) := by
  have hc : (Filters.mk page pageSize sortParam
      ["product_id", "name", "-product_id", "-name"]).sortSafeList.contains sortParam
      = false := by
    simp only [List.contains, List.elem_eq_mem, decide_eq_false_iff_not]
    exact h
  have := validateFilters_sort_fails _ hc
  simp only [listProductHandler, this.1, Bool.not_false, if_true, ite_true]

/-- The review listing handler rejects an out-of-safelist sort value before
reaching the store. -/
theorem listReviewHandler_sortError (s : DBState) (author sortParam : String)
    (page pageSize : Int)
    (h : sortParam ∉ (["review_id", "author", "-review_id", "-author"] : List String)) :
    listReviewHandler s author sortParam page pageSize
      = .error (.validationFailed (ValidateFilters Validator.New
          ⟨page, pageSize, sortParam, ["review_id", "author", "-review_id", "-author"]⟩).errors) := by
  have hc : (Filters.mk page pageSize sortParam
      ["review_id", "author", "-review_id", "-author"]).sortSafeList.contains sortParam
      = false := by
    simp only [List.contains, List.elem_eq_mem, decide_eq_false_iff_not]
    exact h
  have := validateFilters_sort_fails _ hc
  simp only [listReviewHandler, this.1, Bool.not_false, if_true, ite_true]

/-- Claim C4: a listing request whose sort value is outside the entity's
allow-list (Products: product_id, name, -product_id, -name; Reviews:
review_id, author, -review_id, -author) fails filter validation with a
field error on `sort`, and no store query is executed — the handler's
result is the validation error and is independent of the database state. -/
theorem sortOutsideAllowList (s t : DBState) (name category author sortParam : String)
    (page pageSize : Int) :
    (sortParam ∉ (["product_id", "name", "-product_id", "-name"] : List String) →
      listProductHandler s name category sortParam page pageSize
        = .error (.validationFailed (ValidateFilters Validator.New
            ⟨page, pageSize, sortParam, ["product_id", "name", "-product_id", "-name"]⟩).errors) ∧
      ("sort", "invalid sort value") ∈ (ValidateFilters Validator.New
            ⟨page, pageSize, sortParam, ["product_id", "name", "-product_id", "-name"]⟩).errors ∧
      listProductHandler s name category sortParam page pageSize
        = listProductHandler t name category sortParam page pageSize) ∧
    (sortParam ∉ (["review_id", "author", "-review_id", "-author"] : List String) →
      listReviewHandler s author sortParam page pageSize
        = .error (.validationFailed (ValidateFilters Validator.New
            ⟨page, pageSize, sortParam, ["review_id", "author", "-review_id", "-author"]⟩).errors) ∧
      ("sort", "invalid sort value") ∈ (ValidateFilters Validator.New
            ⟨page, pageSize, sortParam, ["review_id", "author", "-review_id", "-author"]⟩).errors ∧
      listReviewHandler s author sortParam page pageSize
        = listReviewHandler t author sortParam page pageSize) := by
  constructor
  · intro h
    refine ⟨listProductHandler_sortError s name category sortParam page pageSize h, ?_, ?_⟩
    · refine (validateFilters_sort_fails _ ?_).2
      simp only [List.contains, List.elem_eq_mem, decide_eq_false_iff_not]
      exact h
    · rw [listProductHandler_sortError s name category sortParam page pageSize h,
        listProductHandler_sortError t name category sortParam page pageSize h]
  · intro h
    refine ⟨listReviewHandler_sortError s author sortParam page pageSize h, ?_, ?_⟩
    · refine (validateFilters_sort_fails _ ?_).2
      simp only [List.contains, List.elem_eq_mem, decide_eq_false_iff_not]
      exact h
    · rw [listReviewHandler_sortError s author sortParam page pageSize h,
        listReviewHandler_sortError t author sortParam page pageSize h]

/-- Witness for C4 with the sort value "price", outside both allow-lists. -/
theorem sortOutsideAllowList_witness :
    (listProductHandler ⟨[], [], 1, 1⟩ "" "" "price" 1 10
        = .error (.validationFailed (ValidateFilters Validator.New
            ⟨1, 10, "price", ["product_id", "name", "-product_id", "-name"]⟩).errors) ∧
      ("sort", "invalid sort value") ∈ (ValidateFilters Validator.New
            ⟨1, 10, "price", ["product_id", "name", "-product_id", "-name"]⟩).errors ∧
      listProductHandler ⟨[], [], 1, 1⟩ "" "" "price" 1 10
        = listProductHandler ⟨[], [], 2, 2⟩ "" "" "price" 1 10) ∧
    (listReviewHandler ⟨[], [], 1, 1⟩ "" "price" 1 10
        = .error (.validationFailed (ValidateFilters Validator.New
            ⟨1, 10, "price", ["review_id", "author", "-review_id", "-author"]⟩).errors) ∧
      ("sort", "invalid sort value") ∈ (ValidateFilters Validator.New
            ⟨1, 10, "price", ["review_id", "author", "-review_id", "-author"]⟩).errors ∧
      listReviewHandler ⟨[], [], 1, 1⟩ "" "price" 1 10
        = listReviewHandler ⟨[], [], 2, 2⟩ "" "price" 1 10) := by
  have h := sortOutsideAllowList ⟨[], [], 1, 1⟩ ⟨[], [], 2, 2⟩ "" "" "" "price" 1 10
  exact ⟨h.1 (by decide), h.2 (by decide)⟩


/-- Claim C2: a create-review request whose `product_id` does not refer to an
existing product fails with the related-resource error naming the missing
product id — an error distinct from the generic not-found — and no review
row is created (the handler returns before any insert, whatever the other
request fields hold). -/
theorem createReview_missingProduct (s : DBState) (inp : ReviewInput) (pid : Int)
    (hpid : inp.productId = some pid)
    (hne : ProductModel.ProductExists s pid = false) :
    createReviewHandler s inp = .error (.pridNotFound pid) ∧
    (∀ i : Int, ApiError.pridNotFound i ≠ ApiError.notFound) := by
  constructor
  · simp only [createReviewHandler, hpid, hne, Bool.not_false, if_true, ite_true]
  · intro i h
    cases h

/-- Witness for C2: inserting a review for product 5 into an empty database
fails with the related-product error, before the absent body fields are
even touched. -/
theorem createReview_missingProduct_witness :
    createReviewHandler ⟨[], [], 1, 1⟩ ⟨some 5, none, none, none, none⟩
      = .error (.pridNotFound 5) ∧
    (∀ i : Int, ApiError.pridNotFound i ≠ ApiError.notFound) :=
  createReview_missingProduct ⟨[], [], 1, 1⟩ ⟨some 5, none, none, none, none⟩ 5
    (by rfl) (by rfl)

/-- Claim C3: deleting an existing product removes the product and every
review referencing it in one atomic state transition: afterwards the
product existence check is false, every previously associated review id
reports not-found (review ids are a primary key, hence pairwise distinct),
and referential integrity — no review referencing a nonexistent product —
is preserved. -/
theorem deleteProduct_cascades (s s' : DBState) (id : Int)
    (hnd : (s.reviews.map Review.reviewId).Nodup)
    (hok : DeleteProduct s id = .ok s') :
    ProductModel.ProductExists s' id = false ∧
    (∀ r ∈ s.reviews, r.productId = id → GetReview s' r.reviewId = .error .notFound) ∧
    (refIntegrity s → refIntegrity s') := by
  have hs' : s' = { s with
      products := s.products.filter (fun p => !(p.productId == id)),
      reviews := s.reviews.filter (fun r => !(r.productId == id)) } := by
    unfold DeleteProduct at hok
    by_cases h1 : id < 1
    · simp [h1] at hok
    · simp only [h1, if_false, Bool.false_eq_true, ite_false] at hok
      by_cases h2 : s.products.any (fun p => p.productId == id)
      · simp only [h2, if_true, automatic_average_rating, ite_true] at hok
        exact (Except.ok.inj hok).symm
      · simp [h2] at hok
  subst hs'
  refine ⟨?_, ?_, ?_⟩
  · simp only [ProductModel.ProductExists]
    rw [List.any_eq_false]
    intro p hp
    have := (List.mem_filter.mp hp).2
    simpa using this
  · intro r hr hrid
    unfold GetReview
    by_cases hlt : r.reviewId < 1
    · simp [hlt]
    · simp only [hlt, if_false, Bool.false_eq_true, ite_false]
      have hfind : (s.reviews.filter (fun x => !(x.productId == id))).find?
          (fun x => x.reviewId == r.reviewId) = none := by
        rw [List.find?_eq_none]
        intro x hx
        have hxmem := (List.mem_filter.mp hx).1
        have hxpid := (List.mem_filter.mp hx).2
        intro hbeq
        have hxid : x.reviewId = r.reviewId := by simpa using hbeq
        have : x = r := List.inj_on_of_nodup_map hnd hxmem hr hxid
        subst this
        rw [hrid] at hxpid
        simp at hxpid
      rw [hfind]
  · intro hri r hr
    have hmem := (List.mem_filter.mp hr).1
    have hpid := (List.mem_filter.mp hr).2
    obtain ⟨p, hp, hpe⟩ := hri r hmem
    refine ⟨p, List.mem_filter.mpr ⟨hp, ?_⟩, hpe⟩
    rw [hpe]
    exact hpid

/-- Witness for C3: deleting product 1, which has two reviews, empties both
tables; existence and both review lookups report not-found. -/
theorem deleteProduct_cascades_witness :
    ProductModel.ProductExists
      { products := [], reviews := [], nextProductId := 3, nextReviewId := 3 } 1 = false ∧
    (∀ r ∈ ([⟨1, 1, "ann", 4, "ok", 0, 1⟩, ⟨2, 1, "bob", 2, "meh", 0, 1⟩] : List Review),
      r.productId = 1 →
      GetReview { products := [], reviews := [], nextProductId := 3, nextReviewId := 3 }
        r.reviewId = .error .notFound) ∧
    (refIntegrity
        { products := [⟨1, "Widget", "d", "tools", "u", "9.99", some 0, 1⟩],
          reviews := [⟨1, 1, "ann", 4, "ok", 0, 1⟩, ⟨2, 1, "bob", 2, "meh", 0, 1⟩],
          nextProductId := 3, nextReviewId := 3 } →
      refIntegrity { products := [], reviews := [], nextProductId := 3, nextReviewId := 3 }) := by
  have h := deleteProduct_cascades
    { products := [⟨1, "Widget", "d", "tools", "u", "9.99", some 0, 1⟩],
      reviews := [⟨1, 1, "ann", 4, "ok", 0, 1⟩, ⟨2, 1, "bob", 2, "meh", 0, 1⟩],
      nextProductId := 3, nextReviewId := 3 }
    { products := [], reviews := [], nextProductId := 3, nextReviewId := 3 } 1
    (by decide) (by rfl)
  exact h


/-- Claim C6: updating an existing review with a partial-field request
overwrites only the supplied fields — each absent field keeps its stored
value (`Option.getD` falls back to the fetched row) — and a successful
update increments the stored version by exactly 1; the returned review is
exactly the row now stored under that id. -/
theorem updateReview_frame (s s' : DBState) (id : Int) (inp : ReviewUpdateInput)
    (ret r : Review)
    (hget : GetReview s id = .ok r)
    (hok : updateReviewHandler s id inp = .ok (s', ret)) :
    ret.author = inp.author.getD r.author ∧
    ret.rating = inp.rating.getD r.rating ∧
    ret.reviewText = inp.reviewText.getD r.reviewText ∧
    ret.version = r.version + 1 ∧
    GetReview s' id = .ok ret := by
  have hlt : ¬(id < 1) := by
    intro h
    unfold GetReview at hget
    simp [h] at hget
  have hfind : s.reviews.find? (fun x => x.reviewId == id) = some r := by
    unfold GetReview at hget
    simp only [hlt, if_false, Bool.false_eq_true, ite_false] at hget
    cases hf : s.reviews.find? (fun x => x.reviewId == id) with
    | none => rw [hf] at hget; cases hget
    | some x => rw [hf] at hget; cases hget; rfl
  have hrid : r.reviewId = id := by
    have := List.find?_some hfind
    simpa using this
  rw [updateReviewHandler, hget] at hok
  simp only at hok
  set merged : Review := { r with
    author := inp.author.getD r.author,
    rating := inp.rating.getD r.rating,
    reviewText := inp.reviewText.getD r.reviewText } with hmerged
  by_cases hv : (ValidateReview Validator.New merged).IsEmpty
  · rw [hv] at hok
    simp only [Bool.not_true, Bool.false_eq_true, if_false, ite_false] at hok
    rw [UpdateReview] at hok
    have hfind2 : s.reviews.find? (fun x => x.reviewId == merged.reviewId) = some r := by
      have : merged.reviewId = id := hrid
      rw [this]
      exact hfind
    rw [hfind2] at hok
    simp only at hok
    have hpair := Except.ok.inj hok
    have hret : ret = { r with
        author := merged.author, rating := merged.rating,
        reviewText := merged.reviewText, version := r.version + 1 } :=
      (congrArg Prod.snd hpair).symm
    have hs' : s' = automatic_average_rating
        { s with reviews := s.reviews.map (fun x =>
            if x.reviewId == merged.reviewId then
              { x with author := merged.author, rating := merged.rating,
                       reviewText := merged.reviewText, version := x.version + 1 }
            else x) }
        (some { r with author := merged.author, rating := merged.rating,
                       reviewText := merged.reviewText, version := r.version + 1 }) :=
      (congrArg Prod.fst hpair).symm
    refine ⟨by rw [hret], by rw [hret], by rw [hret], by rw [hret], ?_⟩
    rw [GetReview]
    simp only [hlt, if_false, Bool.false_eq_true, ite_false]
    have hrev : s'.reviews = s.reviews.map (fun x =>
        if x.reviewId == merged.reviewId then
          { x with author := merged.author, rating := merged.rating,
                   reviewText := merged.reviewText, version := x.version + 1 }
        else x) := by
      rw [hs']
      rfl
    rw [hrev]
    rw [List.find?_map]
    have hcomp : ((fun x : Review => x.reviewId == id) ∘ (fun x =>
        if x.reviewId == merged.reviewId then
          { x with author := merged.author, rating := merged.rating,
                   reviewText := merged.reviewText, version := x.version + 1 }
        else x)) = (fun x : Review => x.reviewId == id) := by
      funext x
      by_cases hx : x.reviewId == merged.reviewId
      · have hxe : x.reviewId = merged.reviewId := by simpa using hx
        simp [Function.comp, hx, hxe]
      · simp [Function.comp, hx]
    rw [hcomp, hfind]
    simp only [Option.map_some]
    have : (r.reviewId == merged.reviewId) = true := by
      simp [hrid]
    rw [hret]
    simp [this]
  · rw [eq_false_of_ne_true hv] at hok
    simp at hok

/-- Witness for C6: updating review 1 with only a rating keeps author and
text, bumps the version from 1 to 2, and stores the returned row. -/
theorem updateReview_frame_witness :
    (Review.mk 1 1 "ann" 5 "ok" 0 2).author = (none : Option String).getD "ann" ∧
    (Review.mk 1 1 "ann" 5 "ok" 0 2).rating = (some 5 : Option Int).getD 4 ∧
    (Review.mk 1 1 "ann" 5 "ok" 0 2).reviewText = (none : Option String).getD "ok" ∧
    (Review.mk 1 1 "ann" 5 "ok" 0 2).version = (Review.mk 1 1 "ann" 4 "ok" 0 1).version + 1 ∧
    GetReview (DBState.mk [Product.mk 1 "W" "d" "t" "u" "9.99" (some 500) 1]
        [Review.mk 1 1 "ann" 5 "ok" 0 2] 2 2) 1
      = .ok (Review.mk 1 1 "ann" 5 "ok" 0 2) :=
  updateReview_frame
    (DBState.mk [Product.mk 1 "W" "d" "t" "u" "9.99" (some 400) 1]
      [Review.mk 1 1 "ann" 4 "ok" 0 1] 2 2)
    (DBState.mk [Product.mk 1 "W" "d" "t" "u" "9.99" (some 500) 1]
      [Review.mk 1 1 "ann" 5 "ok" 0 2] 2 2)
    1 (ReviewUpdateInput.mk none (some 5) none)
    (Review.mk 1 1 "ann" 5 "ok" 0 2) (Review.mk 1 1 "ann" 4 "ok" 0 1)
    (by rfl) (by rfl)


/-- A single helpful-count request on a present review id succeeds, adds
exactly 1 to that review's stored count as one atomic transition, and
leaves every review's count no smaller. -/
theorem helpful_step (s : DBState) (id : Int) (t : Review)
    (hfind : s.reviews.find? (fun x => x.reviewId == id) = some t) :
    ∃ s', HelpfulCountHandler s id
        = .ok (s', { t with helpfulCount := t.helpfulCount + 1 }) ∧
      s'.reviews.find? (fun x => x.reviewId == id)
        = some { t with helpfulCount := t.helpfulCount + 1 } ∧
      List.Forall₂ (fun a b => a.helpfulCount ≤ b.helpfulCount) s.reviews s'.reviews := by
  have htid0 : t.reviewId = id := by
    have h := List.find?_some hfind
    simpa using h
  have htid : (t.reviewId == id) = true := by simp [htid0]
  have hany : s.reviews.any (fun x => x.reviewId == id) = true := by
    rw [List.any_eq_true]
    exact ⟨t, List.mem_of_find?_eq_some hfind, htid⟩
  have hex : ReviewModel.Exists s id = true := hany
  refine ⟨automatic_average_rating
      { s with reviews := s.reviews.map (fun x =>
          if x.reviewId == id then { x with helpfulCount := x.helpfulCount + 1 } else x) }
      (some { t with helpfulCount := t.helpfulCount + 1 }), ?_, ?_, ?_⟩
  · rw [HelpfulCountHandler]
    simp only [hex, Bool.not_true, Bool.false_eq_true, if_false, ite_false]
    rw [UpdateHelpfulCount, hfind]
  · have hrev : (automatic_average_rating
        { s with reviews := s.reviews.map (fun x =>
            if x.reviewId == id then { x with helpfulCount := x.helpfulCount + 1 } else x) }
        (some { t with helpfulCount := t.helpfulCount + 1 })).reviews
        = s.reviews.map (fun x =>
            if x.reviewId == id then { x with helpfulCount := x.helpfulCount + 1 } else x) := rfl
    rw [hrev, List.find?_map]
    have hcomp : ((fun x : Review => x.reviewId == id) ∘ (fun x =>
        if x.reviewId == id then { x with helpfulCount := x.helpfulCount + 1 } else x))
        = (fun x : Review => x.reviewId == id) := by
      funext x
      by_cases hx : x.reviewId == id
      · simp [Function.comp, hx]
      · simp [Function.comp, hx]
    rw [hcomp, hfind]
    simp [htid0]
  · have hrev : (automatic_average_rating
        { s with reviews := s.reviews.map (fun x =>
            if x.reviewId == id then { x with helpfulCount := x.helpfulCount + 1 } else x) }
        (some { t with helpfulCount := t.helpfulCount + 1 })).reviews
        = s.reviews.map (fun x =>
            if x.reviewId == id then { x with helpfulCount := x.helpfulCount + 1 } else x) := rfl
    rw [hrev]
    rw [List.forall₂_map_right_iff]
    rw [List.forall₂_same]
    intro x _
    by_cases hx : x.reviewId == id
    · simp [hx]
    · simp [hx]

/-- Claim C9: each helpful-count call adds exactly 1 to the stored count of
the target review as a single atomic add-1 on the stored value (the
returned review is the old row with count + 1), counts never decrease
across a call, and `n` repetitions starting from the stored count yield
exactly count + n (so starting from 0 they yield exactly n). -/
theorem helpfulCount_addsExactlyOne (s s' : DBState) (id : Int) (r ret : Review) (n : Nat)
    (hfind : s.reviews.find? (fun x => x.reviewId == id) = some r)
    (hok : HelpfulCountHandler s id = .ok (s', ret)) :
    ret = { r with helpfulCount := r.helpfulCount + 1 } ∧
    List.Forall₂ (fun a b => a.helpfulCount ≤ b.helpfulCount) s.reviews s'.reviews ∧
    (iterateHelpful s id n).reviews.find? (fun x => x.reviewId == id)
      = some { r with helpfulCount := r.helpfulCount + (n : Int) } := by
  obtain ⟨s1, hstep, hfind1, hmono⟩ := helpful_step s id r hfind
  have hpair := Except.ok.inj (hstep ▸ hok)
  refine ⟨?_, ?_, ?_⟩
  · exact (congrArg Prod.snd hpair).symm
  · have : s' = s1 := (congrArg Prod.fst hpair).symm
    rw [this]
    exact hmono
  · clear hok hpair
    induction n with
    | zero =>
      show s.reviews.find? (fun x => x.reviewId == id) = _
      rw [hfind]
      congr 1
      simp
    | succ n ih =>
      obtain ⟨s2, hstep2, hfind2, _⟩ := helpful_step (iterateHelpful s id n) id
        { r with helpfulCount := r.helpfulCount + (n : Int) } ih
      have hit : iterateHelpful s id (n + 1) = s2 := by
        simp only [iterateHelpful]
        rw [hstep2]
      rw [hit, hfind2]
      congr 1
      simp only [Review.mk.injEq, and_true, true_and]
      push_cast
      ring

/-- Witness for C9: three helpful-count requests on review 1 (count 0)
leave it at exactly 3; a single call returns the row with count 1. -/
theorem helpfulCount_addsExactlyOne_witness :
    Review.mk 1 1 "ann" 4 "ok" 1 1
      = { Review.mk 1 1 "ann" 4 "ok" 0 1 with
          helpfulCount := (Review.mk 1 1 "ann" 4 "ok" 0 1).helpfulCount + 1 } ∧
    List.Forall₂ (fun a b => a.helpfulCount ≤ b.helpfulCount)
      (DBState.mk [Product.mk 1 "W" "d" "t" "u" "9.99" (some 400) 1]
        [Review.mk 1 1 "ann" 4 "ok" 0 1] 2 2).reviews
      (DBState.mk [Product.mk 1 "W" "d" "t" "u" "9.99" (some 400) 1]
        [Review.mk 1 1 "ann" 4 "ok" 1 1] 2 2).reviews ∧
    (iterateHelpful (DBState.mk [Product.mk 1 "W" "d" "t" "u" "9.99" (some 400) 1]
        [Review.mk 1 1 "ann" 4 "ok" 0 1] 2 2) 1 3).reviews.find?
        (fun x => x.reviewId == 1)
      = some { Review.mk 1 1 "ann" 4 "ok" 0 1 with
          helpfulCount := (Review.mk 1 1 "ann" 4 "ok" 0 1).helpfulCount + ((3 : Nat) : Int) } :=
  helpfulCount_addsExactlyOne
    (DBState.mk [Product.mk 1 "W" "d" "t" "u" "9.99" (some 400) 1]
      [Review.mk 1 1 "ann" 4 "ok" 0 1] 2 2)
    (DBState.mk [Product.mk 1 "W" "d" "t" "u" "9.99" (some 400) 1]
      [Review.mk 1 1 "ann" 4 "ok" 1 1] 2 2)
    1 (Review.mk 1 1 "ann" 4 "ok" 0 1) (Review.mk 1 1 "ann" 4 "ok" 1 1) 3
    (by rfl) (by rfl)

/-- Claim C10: a listing call whose row offset is at or beyond the number of
rows matching the filter returns a zero total-record count and the all-zero
metadata record, even when matching rows exist, because the window count is
only scanned from the rows of the returned (empty) page. -/
theorem listing_pastLastPage (s : DBState) (name category author : String) (f : Filters)
    (hp : (s.products.filter (productWhere name category)).length ≤ f.offset.toNat)
    (hr : (s.reviews.filter (reviewWhere author)).length ≤ f.offset.toNat) :
    GetAllProducts s name category f = ([], ⟨0, 0, 0, 0⟩) ∧
    GetAllReviews s author f = ([], ⟨0, 0, 0, 0⟩) := by
  constructor
  · unfold GetAllProducts
    have hdrop : ((s.products.filter (productWhere name category)).mergeSort
        (productOrder f)).drop f.offset.toNat = [] := by
      apply List.drop_eq_nil_of_le
      rw [List.length_mergeSort]
      exact hp
    simp [hdrop, calculateMetaData]
  · unfold GetAllReviews
    have hdrop : ((s.reviews.filter (reviewWhere author)).mergeSort
        (reviewOrder f)).drop f.offset.toNat = [] := by
      apply List.drop_eq_nil_of_le
      rw [List.length_mergeSort]
      exact hr
    simp [hdrop, calculateMetaData]

theorem listing_pastLastPage_witness :
    GetAllProducts
      (DBState.mk [Product.mk 1 "W" "d" "t" "u" "9.99" (some 0) 1,
                   Product.mk 2 "V" "d" "t" "u" "1.50" (some 0) 1]
        [Review.mk 1 1 "ann" 4 "ok" 0 1] 3 2)
      "" "" (Filters.mk 5 10 "product_id" ["product_id", "name", "-product_id", "-name"])
      = ([], ⟨0, 0, 0, 0⟩) ∧
    GetAllReviews
      (DBState.mk [Product.mk 1 "W" "d" "t" "u" "9.99" (some 0) 1,
                   Product.mk 2 "V" "d" "t" "u" "1.50" (some 0) 1]
        [Review.mk 1 1 "ann" 4 "ok" 0 1] 3 2)
      "" (Filters.mk 5 10 "review_id" ["review_id", "author", "-review_id", "-author"])
      = ([], ⟨0, 0, 0, 0⟩) := by
  constructor
  · exact (listing_pastLastPage _ "" "" ""
      (Filters.mk 5 10 "product_id" ["product_id", "name", "-product_id", "-name"])
      (by simp [productWhere, Filters.offset]) (by simp [reviewWhere, Filters.offset])).1
  · exact (listing_pastLastPage
      (DBState.mk [Product.mk 1 "W" "d" "t" "u" "9.99" (some 0) 1,
                   Product.mk 2 "V" "d" "t" "u" "1.50" (some 0) 1]
        [Review.mk 1 1 "ann" 4 "ok" 0 1] 3 2)
      "" "" ""
      (Filters.mk 5 10 "review_id" ["review_id", "author", "-review_id", "-author"])
      (by simp [productWhere, Filters.offset]) (by simp [reviewWhere, Filters.offset])).2

/-- Claim C1 (failing part): the aggregation trigger keeps `average_rating`
equal to the rounded mean on inserts — ratings 2 then 4 yield 3.00
(300 hundredths) — but on review deletion the trigger function reads
`NEW.product_id`, which is NULL for DELETE rows, so its UPDATE matches no
product: after deleting the rating-4 review the average stays 3.00 instead
of the claimed 2.00, and after deleting the last review it stays 3.00
instead of resetting to 0.00. -/
theorem averageRating_staleAfterDelete :
    averagingScenario = .ok (some (some 300), some (some 300), some (some 300)) ∧
    (some (some 300) : Option (Option Int)) ≠ some (some 200) ∧
    (some (some 300) : Option (Option Int)) ≠ some (some 0) :=
  ⟨rfl, by decide, by decide⟩

end ProductReview
